import Mathlib

/-!
Verification of async-ultimate-sitemap-parser against its specification.

The development shallowly embeds the repository's Python code:

* `usp/discovery.py` — `discover_sitemap_urls_from_robots`: robots.txt based
  sitemap discovery (line scan, URL filter, ordered de-duplication).
* `usp/web_client/httpx_client.py` — the httpx-based web client: response
  truncation (`raw_data`), error classification (`get`), inter-request
  throttling (`__wait_if_needed`), lazy transport construction
  (`_get_client`) and `close`.
* The sitemap fetcher orchestrator (cycle/depth guards, recursive expansion
  of index documents) and the tree entry point, whose modules are not among
  the provided sources and are therefore modelled from the specification.

Python strings are embedded as `List Char` so that every operation is
structurally recursive and kernel-computable. Network effects are embedded
as explicit oracles (functions supplied by the caller), and every effectful
function additionally returns the list of URLs it requested, so claims of
the form "no network call is made" are statable.
-/

namespace Usp

/-- A Python string, embedded as its character list. -/
abbrev PyStr := List Char

/-! ## Python string primitives (structural, kernel-computable) -/

/-- The ASCII whitespace characters recognized by Python's `str.strip` and
by `\s` in the regexes of `discovery.py` (Unicode whitespace beyond these is
not modelled). -/
def isSpaceChar (c : Char) : Bool :=
  c == ' ' || c == '\t' || c == '\n' || c == '\r' || c == '\x0b' || c == '\x0c'

/-- ASCII lowercasing of one character; models the effect of
`re.IGNORECASE` matching against the ASCII directive patterns and of the
lowercase scheme comparison in URL validation. -/
def asciiLower (c : Char) : Char :=
  if 'A' ≤ c && c ≤ 'Z' then Char.ofNat (c.toNat + 32) else c

/-- Lowercase an embedded string. -/
def lowerStr (s : PyStr) : PyStr :=
  s.map asciiLower

/-- `s` starts with `pat` (Python `str.startswith` / an anchored regex
match). -/
def startsWithL : PyStr → PyStr → Bool
  | _, [] => true
  | [], _ :: _ => false
  | c :: cs, d :: ds => c == d && startsWithL cs ds

/-- Python `str.strip()` restricted to ASCII whitespace. -/
def stripStr (s : PyStr) : PyStr :=
  ((s.dropWhile isSpaceChar).reverse.dropWhile isSpaceChar).reverse

/-- Python `str.lstrip()` restricted to ASCII whitespace; models the greedy
`\s*` between the directive colon and the captured token. -/
def lstripStr (s : PyStr) : PyStr :=
  s.dropWhile isSpaceChar

/-- Helper for `splitLinesL`: accumulates the current line (reversed). -/
def splitLinesAux (cur : PyStr) : PyStr → List PyStr
  | [] => [cur.reverse]
  | c :: rest =>
      if c == '\n' || c == '\r' then cur.reverse :: splitLinesAux [] rest
      else splitLinesAux (c :: cur) rest

/-- Python `str.splitlines`, modelled as splitting at line feeds and
carriage returns. (A `\r\n` pair produces an extra empty segment, which
carries no directive and is therefore harmless.) -/
def splitLinesL (s : PyStr) : List PyStr :=
  splitLinesAux [] s

/-! ## Helpers modelled from the spec (`usp/helpers.py` is not among the
provided sources) -/

/-- Modelled from the spec: `is_http_url` from the missing
`usp/helpers.py`. The spec requires the candidate to "parse as an absolute
HTTP(S) URL"; we model this as a case-insensitive `http://` or `https://`
scheme followed by a nonempty remainder (the host). -/
def isHttpUrl (url : PyStr) : Bool :=
  let low := lowerStr url
  (startsWithL low "http://".data && decide (url.length > 7))
    || (startsWithL low "https://".data && decide (url.length > 8))

/-- Splits a URL at its first `://`, returning the scheme and the
remainder. -/
def splitScheme : PyStr → Option (PyStr × PyStr)
  | [] => none
  | c :: cs =>
      if startsWithL (c :: cs) "://".data then some ([], cs.drop 2)
      else
        match splitScheme cs with
        | some (scheme, rest) => some (c :: scheme, rest)
        | none => none

/-- Modelled from the spec: `strip_url_to_homepage` from the missing
`usp/helpers.py`. The spec: "Normalizes `homepage_url` to its origin
(scheme + host, stripping path/query)"; we keep the scheme separator and
cut the remainder at the first `/`, `?` or `#`. -/
def stripUrlToHomepage (url : PyStr) : PyStr :=
  match splitScheme url with
  | some (scheme, rest) =>
      scheme ++ "://".data
        ++ rest.takeWhile (fun c => !(c == '/' || c == '?' || c == '#'))
  | none => url

/-! ## robots.txt line scan (`usp/discovery.py`, lines 76-89) -/

/-- The captured group `(.+?)$` after `\s*`: strip the leading whitespace,
and succeed only when at least one character remains. -/
def tokenOfRest (r : PyStr) : Option PyStr :=
  let candidate := lstripStr r
  if candidate.isEmpty then none else some candidate

/-- The per-line directive match of `discovery.py`:
`re.search(r"^site-?map:\s*(.+?)$", line.strip(), flags=re.IGNORECASE)`.
The anchored pattern matches exactly when the stripped line starts
(case-insensitively) with `sitemap:` or `site-map:`; `\s*` greedily eats
the whitespace after the colon and `(.+?)$` captures the nonempty remainder
of the line. -/
def lineDirectiveCandidate (line : PyStr) : Option PyStr :=
  let l := stripStr line
  let low := lowerStr l
  if startsWithL low "sitemap:".data then tokenOfRest (l.drop 8)
  else if startsWithL low "site-map:".data then tokenOfRest (l.drop 9)
  else none

/-- One iteration of the accumulation loop of `discovery.py` lines 77-87:
the `OrderedDict` keyed by candidate URL (re-inserting an existing key
keeps its original position), with candidates failing `is_http_url`
skipped. -/
def robotsStep (acc : List PyStr) (line : PyStr) : List PyStr :=
  (lineDirectiveCandidate line).elim acc fun u =>
    if isHttpUrl u then (if u ∈ acc then acc else acc ++ [u]) else acc

/-- The full accumulation loop over the split lines of the robots.txt
body. -/
def robotsLoop (lines : List PyStr) : List PyStr :=
  lines.foldl robotsStep []

/-- Result of fetching robots.txt through the retrying fetch helper
(`get_url_retry_on_client_errors` of the missing `usp/helpers.py`): either
the (already ungzipped) body, or a `WebClientErrorResponse` carrying a
message — a 404 reaches `discovery.py` as such an error response. -/
inductive RobotsFetch where
  | ok (content : PyStr)
  | err (message : PyStr)

/-- Shallow embedding of `discover_sitemap_urls_from_robots`
(`usp/discovery.py`, lines 43-89). The network is the oracle `net`; the
second component of the result is the list of URLs actually requested.
`Except.error` models the raised `ValueError`. -/
def discoverSitemapUrlsFromRobots (homepageUrl : PyStr)
    (net : PyStr → RobotsFetch) : Except PyStr (List PyStr) × List PyStr :=
  if !isHttpUrl homepageUrl then
    (.error ("URL ".data ++ homepageUrl ++ " is not a HTTP(s) URL.".data), [])
  else
    let home := stripUrlToHomepage homepageUrl
    let home := if home.getLast? == some '/' then home else home ++ ['/']
    let robotsTxtUrl := home ++ "robots.txt".data
    match net robotsTxtUrl with
    | .err _ => (.ok [], [robotsTxtUrl])
    | .ok content => (.ok (robotsLoop (splitLinesL content)), [robotsTxtUrl])

/-- The robots.txt URL that `discover_sitemap_urls_from_robots` fetches for
a given homepage. -/
def robotsTxtUrlOf (homepageUrl : PyStr) : PyStr :=
  let home := stripUrlToHomepage homepageUrl
  let home := if home.getLast? == some '/' then home else home ++ ['/']
  home ++ "robots.txt".data

/-! ## Spec-side description of the robots extraction

For the refinement claim: "exactly the tokens following a case-insensitive
`sitemap:` or `site-map:` directive on each line, restricted to tokens that
are themselves absolute HTTP(S) URLs, de-duplicated while preserving
first-seen line order". -/

/-- First-seen-order de-duplication, written declaratively: keep an element
exactly when it has not been seen before. -/
def specDedupAux (seen : List PyStr) : List PyStr → List PyStr
  | [] => []
  | x :: xs =>
      if x ∈ seen then specDedupAux seen xs
      else x :: specDedupAux (x :: seen) xs

/-- First-seen-order de-duplication of a list. -/
def specFirstSeenDedup (xs : List PyStr) : List PyStr :=
  specDedupAux [] xs

/-- Spec-side description of the extraction: collect the directive token of
each line, keep those that are absolute HTTP(S) URLs, and de-duplicate
keeping first-seen order. -/
def specRobotsSitemapUrls (content : PyStr) : List PyStr :=
  specFirstSeenDedup
    (((splitLinesL content).filterMap lineDirectiveCandidate).filter isHttpUrl)

/-! ## The Sitemap Type Model and the Sitemap Fetcher

Modelled from the spec: the fetcher module is not among the provided
sources. Spec §3 gives the polymorphic document hierarchy and §4.2 the
fetch algorithm (cycle check, depth check, filter callbacks, fetch,
classify, recursive expansion of index documents). Fetching, decompression,
format classification and parsing of one document are collapsed into the
oracle `web : PyStr → FetchedDoc`, since transport and grammar internals
are out of scope for the spec. -/

/-- A resolved sitemap tree node (spec §3). `IndexRobotsTxtSitemap` is an
index variant like `IndexSitemap` and is not distinguished here; pages are
reduced to their URLs, since no claim touches page attributes. -/
inductive Sitemap where
  | indexSitemap (url : PyStr) (subSitemaps : List Sitemap)
  | pagesSitemap (url : PyStr) (pageUrls : List PyStr)
  | invalidSitemap (url : PyStr) (reason : String)

/-- What one fetched-and-classified document contains: an index document's
child sitemap URLs, a leaf document's page URLs, or a terminal
fetch/decompress/classify failure with its reason. -/
inductive FetchedDoc where
  | indexDoc (childUrls : List PyStr)
  | pagesDoc (pageUrls : List PyStr)
  | failure (reason : String)

/-- Modelled from the spec (§4.2): the Sitemap Fetcher's
`fetch(url, web_client, recursion_level, parent_urls, ...)`. Checks, in
order: membership of `url` in `parent_urls` (cycle), the recursion-depth
bound, the single-URL filter callback; then consults the oracle and, for an
index document, applies the list filter callback once and recurses over the
children at `recursion_level + 1` with `url` added to `parent_urls`. The
second component of the result is the list of URLs actually fetched, in
fetch order. Termination is enforced by the depth guard alone. -/
def fetchSitemap (web : PyStr → FetchedDoc) (maxLevel : Nat)
    (rcb : Option (PyStr → Nat → List PyStr → Bool))
    (rlcb : Option (List PyStr → Nat → List PyStr → List PyStr)) :
    (level : Nat) → (parentUrls : List PyStr) → (url : PyStr) →
      Sitemap × List PyStr
  | level, parentUrls, url =>
    if url ∈ parentUrls then (.invalidSitemap url "cycle detected", [])
    else if _h : level > maxLevel then
      (.invalidSitemap url "max recursion depth exceeded", [])
    else if (rcb.elim true fun f => f url level parentUrls) = false then
      (.invalidSitemap url "filtered by callback", [])
    else
      match web url with
      | .failure reason => (.invalidSitemap url reason, [url])
      | .pagesDoc pageUrls => (.pagesSitemap url pageUrls, [url])
      | .indexDoc childUrls =>
          let filtered := rlcb.elim childUrls fun g => g childUrls level parentUrls
          let results := filtered.map fun u =>
            fetchSitemap web maxLevel rcb rlcb (level + 1) (url :: parentUrls) u
          (.indexSitemap url (results.map Prod.fst),
            url :: (results.map Prod.snd).flatten)
termination_by level _ _ => maxLevel + 1 - level
decreasing_by omega

/-- Modelled from the spec (§4.5): the fixed list of conventional default
sitemap paths seeded by the Tree Entry Point (the spec names
`/sitemap.xml` as the example). -/
def defaultKnownPaths : List PyStr :=
  ["sitemap.xml".data]

/-- Modelled from the spec (§4.5): `sitemap_tree_for_homepage`. Validates
the homepage URL (via Robots Discovery, which raises the validation error
before any request), seeds the fetcher with the robots.txt-declared
sitemaps followed by the conventional and caller-supplied paths resolved
against the homepage origin, fetches each seed at recursion level 0 with
empty `parent_urls`, and wraps the results under one synthetic root
`IndexSitemap`. The second component collects every URL requested. -/
def sitemapTreeForHomepage (homepageUrl : PyStr) (extraKnownPaths : List PyStr)
    (net : PyStr → RobotsFetch) (web : PyStr → FetchedDoc) (maxLevel : Nat) :
    Except PyStr Sitemap × List PyStr :=
  match discoverSitemapUrlsFromRobots homepageUrl net with
  | (.error e, reqs) => (.error e, reqs)
  | (.ok robotsUrls, reqs) =>
      let home := stripUrlToHomepage homepageUrl
      let home := if home.getLast? == some '/' then home else home ++ ['/']
      let seeds := robotsUrls ++ (defaultKnownPaths ++ extraKnownPaths).map (home ++ ·)
      let results := seeds.map fun u => fetchSitemap web maxLevel none none 0 [] u
      (.ok (.indexSitemap homepageUrl (results.map Prod.fst)),
        reqs ++ (results.map Prod.snd).flatten)

/-- The two-node cyclic web of the cycle claim: `a`'s document is an index
referencing `b`, `b`'s an index referencing `a`, and everything else is
missing. -/
def cycleWeb (a b : PyStr) : PyStr → FetchedDoc :=
  fun u =>
    if u = a then .indexDoc [b]
    else if u = b then .indexDoc [a]
    else .failure "404 Not Found"

/-! ## The httpx web client (`usp/web_client/httpx_client.py`)

The transport itself (the `httpx.AsyncClient`) is external; one call to it
is embedded as a `TransportEvent` supplied by the caller: the exception
raised, or the response received. Transport clients are identified by
ghost numbers so that lazy construction and closing are observable. -/

/-- Modelled from the spec: `RETRYABLE_HTTP_STATUS_CODES` is imported from
the missing `usp/web_client/abstract_client.py`; the spec fixes the set of
transient server statuses as 429, 500, 502, 503, 504. -/
def RETRYABLE_HTTP_STATUS_CODES : List Nat :=
  [429, 500, 502, 503, 504]

/-- The outcome of one underlying `client.get(url)` call:
`httpx.TimeoutException`, any other `httpx.HTTPError` (connection failures,
DNS resolution failures, redirect loops, ...), or an HTTP response. -/
inductive TransportEvent where
  | timeoutError (message : String)
  | httpError (message : String)
  | response (statusCode : Nat) (reasonPhrase : String) (content : List Nat)

/-- What `HttpxWebClient.get` returns: a success response (which remembers
the configured maximum data length, applied lazily by `raw_data`), or an
error response with a message and a retryable flag. -/
inductive GetResult where
  | success (statusCode : Nat) (maxResponseDataLength : Option Int)
      (content : List Nat)
  | error (message : String) (retryable : Bool)
deriving DecidableEq

/-- The classification in the body of `HttpxWebClient.get` (lines 189-214):
timeouts are retryable errors; other `httpx.HTTPError`s are non-retryable
errors; a 2xx status is a success; any other status is an error that is
retryable exactly when the status is in `RETRYABLE_HTTP_STATUS_CODES`. -/
def httpxGetClassify (maxResponseDataLength : Option Int) :
    TransportEvent → GetResult
  | .timeoutError m => .error m true
  | .httpError m => .error m false
  | .response statusCode reasonPhrase content =>
      if 200 ≤ statusCode && statusCode < 300 then
        .success statusCode maxResponseDataLength content
      else
        let message := Nat.repr statusCode ++ " " ++ reasonPhrase
        if statusCode ∈ RETRYABLE_HTTP_STATUS_CODES then .error message true
        else .error message false

/-- Python's `data[:n]` slice on the body bytes: a nonnegative bound takes
that many leading bytes; a negative bound removes that many from the
end. -/
def pySliceTo (n : Int) (xs : List Nat) : List Nat :=
  if 0 ≤ n then xs.take n.toNat else xs.take (xs.length - (-n).toNat)

/-- `HttpxWebClientSuccessResponse.raw_data` (lines 57-63): the stored
limit is tested for truthiness (`if self.__max_response_data_length:`), so
both `None` and `0` leave the body untruncated. -/
def rawData (maxResponseDataLength : Option Int) (content : List Nat) :
    List Nat :=
  match maxResponseDataLength with
  | none => content
  | some n => if n = 0 then content else pySliceTo n content

/-- The mutable state of one `HttpxWebClient` instance. The configuration
fields that no claim touches (`timeout`, `proxy`, `verify`, `http2`) are
omitted; `nextId`/`closedIds` are ghost bookkeeping giving each constructed
transport an identity and recording which ones have been `aclose`d. -/
structure HttpxWebClientState where
  maxResponseDataLength : Option Int
  wait : Rat
  randomWait : Bool
  isFirstRequest : Bool
  client : Option Nat
  nextId : Nat
  closedIds : List Nat
deriving DecidableEq

/-- `HttpxWebClient.__init__`: `self.__wait = wait or 0`, first-request
flag set, no transport constructed yet. -/
def initHttpxWebClient (wait : Option Rat) (randomWait : Bool) :
    HttpxWebClientState :=
  { maxResponseDataLength := none
    wait := wait.getD 0
    randomWait := randomWait
    isFirstRequest := true
    client := none
    nextId := 0
    closedIds := [] }

/-- `HttpxWebClient.set_max_response_data_length`. -/
def setMaxResponseDataLength (s : HttpxWebClientState) (n : Option Int) :
    HttpxWebClientState :=
  { s with maxResponseDataLength := n }

/-- `HttpxWebClient.__wait_if_needed` (lines 162-178). `draw` stands for
the value returned by `random.uniform(0.5, 1.5)` when a random wait is
configured. Returns the duration slept (`none` when no sleep was
performed) and the updated state. -/
def waitIfNeeded (s : HttpxWebClientState) (draw : Rat) :
    Option Rat × HttpxWebClientState :=
  if s.wait = 0 then (none, s)
  else if s.isFirstRequest then (none, { s with isFirstRequest := false })
  else
    let waitF := if s.randomWait then draw else 1
    (some (s.wait * waitF), s)

/-- `HttpxWebClient._get_client` (lines 123-133): return the current
transport, constructing a fresh one on demand when none is present. -/
def getTransport (s : HttpxWebClientState) : Nat × HttpxWebClientState :=
  match s.client with
  | some c => (c, s)
  | none => (s.nextId, { s with client := some s.nextId, nextId := s.nextId + 1 })

/-- `HttpxWebClient.close` (lines 216-220): `aclose` the transport if one
is present and drop the reference; otherwise do nothing. -/
def closeClient (s : HttpxWebClientState) : HttpxWebClientState :=
  match s.client with
  | some c => { s with client := none, closedIds := c :: s.closedIds }
  | none => s

/-- `HttpxWebClient.get` (lines 180-214): wait if needed, obtain the
transport (constructing it lazily), perform the request — whose outcome is
the supplied `TransportEvent` — and classify it. Returns the result, the
duration slept, and the updated state. -/
def httpxGet (s : HttpxWebClientState) (draw : Rat) (ev : TransportEvent) :
    GetResult × Option Rat × HttpxWebClientState :=
  let ws := waitIfNeeded s draw
  let cs := getTransport ws.2
  (httpxGetClassify cs.2.maxResponseDataLength ev, ws.1, cs.2)

/-- The sleeps performed by a sequence of `get` calls, each call given its
jitter draw and its transport outcome. -/
def runGetSleeps (s : HttpxWebClientState) :
    List (Rat × TransportEvent) → List (Option Rat)
  | [] => []
  | (draw, ev) :: rest =>
      let r := httpxGet s draw ev
      r.2.1 :: runGetSleeps r.2.2 rest

/-- The operations a caller can perform on one client instance. -/
inductive ClientOp where
  | opGet (draw : Rat) (ev : TransportEvent)
  | opClose
  | opSetMaxLen (n : Option Int)

/-- Run a sequence of caller operations on a client state. -/
def runClientOps (s : HttpxWebClientState) : List ClientOp → HttpxWebClientState
  | [] => s
  | .opGet draw ev :: rest => runClientOps (httpxGet s draw ev).2.2 rest
  | .opClose :: rest => runClientOps (closeClient s) rest
  | .opSetMaxLen n :: rest => runClientOps (setMaxResponseDataLength s n) rest

/-- Well-formedness of the ghost transport bookkeeping: every closed id and
the live id (if any) were allocated, and the live transport has not been
closed. -/
def wfClient (s : HttpxWebClientState) : Prop :=
  (∀ i ∈ s.closedIds, i < s.nextId)
    ∧ ∀ c, s.client = some c → c < s.nextId ∧ c ∉ s.closedIds

/-! ### The loop implements the declarative description -/

theorem specDedupAux_congr (xs : List PyStr) :
    ∀ s₁ s₂ : List PyStr, (∀ a, a ∈ s₁ ↔ a ∈ s₂) →
      specDedupAux s₁ xs = specDedupAux s₂ xs := by
  induction xs with
  | nil => intro s₁ s₂ _; rfl
  | cons x xs ih =>
      intro s₁ s₂ h
      rw [specDedupAux, specDedupAux]
      by_cases hx : x ∈ s₁
      · rw [if_pos hx, if_pos ((h x).mp hx)]
        exact ih s₁ s₂ h
      · rw [if_neg hx, if_neg (fun hc => hx ((h x).mpr hc))]
        refine congrArg (x :: ·) (ih _ _ ?_)
        intro a
        simp only [List.mem_cons]
        exact or_congr Iff.rfl (h a)

theorem foldl_insert_eq_dedup (xs : List PyStr) :
    ∀ acc : List PyStr,
      xs.foldl (fun a x => if x ∈ a then a else a ++ [x]) acc =
        acc ++ specDedupAux acc xs := by
  induction xs with
  | nil => intro acc; simp [specDedupAux]
  | cons x xs ih =>
      intro acc
      rw [List.foldl_cons, specDedupAux]
      by_cases hx : x ∈ acc
      · rw [if_pos hx, if_pos hx]
        exact ih acc
      · rw [if_neg hx, if_neg hx, ih (acc ++ [x])]
        rw [List.append_assoc, List.singleton_append]
        refine congrArg (acc ++ x :: ·) ?_
        refine specDedupAux_congr xs _ _ ?_
        intro a
        simp [or_comm]

theorem foldl_robotsStep_eq (lines : List PyStr) :
    ∀ acc : List PyStr,
      lines.foldl robotsStep acc =
        ((lines.filterMap lineDirectiveCandidate).filter isHttpUrl).foldl
          (fun a x => if x ∈ a then a else a ++ [x]) acc := by
  induction lines with
  | nil => intro acc; rfl
  | cons line rest ih =>
      intro acc
      rw [List.foldl_cons, List.filterMap_cons]
      cases h : lineDirectiveCandidate line with
      | none =>
          rw [show robotsStep acc line = acc by rw [robotsStep, h]; rfl]
          exact ih acc
      | some u =>
          rw [List.filter_cons]
          cases hu : isHttpUrl u with
          | false =>
              rw [show robotsStep acc line = acc by rw [robotsStep, h]; simp [hu]]
              simp only [Bool.false_eq_true, if_false]
              exact ih acc
          | true =>
              rw [show robotsStep acc line = (if u ∈ acc then acc else acc ++ [u]) by
                    rw [robotsStep, h]; simp [hu]]
              simp only [if_true, List.foldl_cons]
              exact ih _

theorem robotsLoop_eq_spec (content : PyStr) :
    robotsLoop (splitLinesL content) = specRobotsSitemapUrls content := by
  rw [robotsLoop, foldl_robotsStep_eq, foldl_insert_eq_dedup]
  rfl

/-! ## Shared lemmas about the discovery function -/

theorem discover_ok_body (homepageUrl body : PyStr) (net : PyStr → RobotsFetch)
    (hurl : isHttpUrl homepageUrl = true)
    (hnet : net (robotsTxtUrlOf homepageUrl) = .ok body) :
    discoverSitemapUrlsFromRobots homepageUrl net =
      (.ok (robotsLoop (splitLinesL body)), [robotsTxtUrlOf homepageUrl]) := by
  simp only [robotsTxtUrlOf] at hnet ⊢
  rw [discoverSitemapUrlsFromRobots]
  simp only [hurl, Bool.not_true, Bool.false_eq_true, if_false, hnet]

theorem discover_err (homepageUrl : PyStr) (m : PyStr) (net : PyStr → RobotsFetch)
    (hurl : isHttpUrl homepageUrl = true)
    (hnet : net (robotsTxtUrlOf homepageUrl) = .err m) :
    discoverSitemapUrlsFromRobots homepageUrl net =
      (.ok [], [robotsTxtUrlOf homepageUrl]) := by
  simp only [robotsTxtUrlOf] at hnet ⊢
  rw [discoverSitemapUrlsFromRobots]
  simp only [hurl, Bool.not_true, Bool.false_eq_true, if_false, hnet]

theorem discover_invalid (homepageUrl : PyStr) (net : PyStr → RobotsFetch)
    (hurl : isHttpUrl homepageUrl = false) :
    discoverSitemapUrlsFromRobots homepageUrl net =
      (.error ("URL ".data ++ homepageUrl ++ " is not a HTTP(s) URL.".data), []) := by
  rw [discoverSitemapUrlsFromRobots]
  simp only [hurl, Bool.not_false, if_true]

theorem robots_no_directives (body : PyStr)
    (h : ∀ line ∈ splitLinesL body, lineDirectiveCandidate line = none) :
    robotsLoop (splitLinesL body) = [] := by
  rw [robotsLoop, foldl_robotsStep_eq]
  rw [List.filterMap_eq_nil_iff.mpr h]
  rfl

/-! ## Claim C1 — cycle guard and termination of the recursive walk -/

/-- C1: for every URL already a member of `parent_urls`, the fetch returns
`InvalidSitemap` citing a cycle immediately, with no network request; and
on a two-sitemap cycle (A references B, B references A) the fetch of A
produces a subtree in which B is a valid index child of A and B's child
referencing A is an `InvalidSitemap` citing the cycle, with exactly A and B
fetched once each. The walk always terminates: `fetchSitemap` is a total
function, its recursion bounded by the depth guard. -/
theorem fetchSitemap_cycle_guard :
    (∀ (web : PyStr → FetchedDoc) (maxLevel : Nat)
        (rcb : Option (PyStr → Nat → List PyStr → Bool))
        (rlcb : Option (List PyStr → Nat → List PyStr → List PyStr))
        (level : Nat) (parentUrls : List PyStr) (url : PyStr),
        url ∈ parentUrls →
          fetchSitemap web maxLevel rcb rlcb level parentUrls url =
            (.invalidSitemap url "cycle detected", []))
    ∧ (∀ (a b : PyStr) (maxLevel : Nat), a ≠ b → 1 ≤ maxLevel →
        fetchSitemap (cycleWeb a b) maxLevel none none 0 [] a =
          (.indexSitemap a
              [.indexSitemap b [.invalidSitemap a "cycle detected"]],
            [a, b])) := by
  constructor
  · intro web maxLevel rcb rlcb level parentUrls url h
    rw [fetchSitemap, if_pos h]
  · intro a b maxLevel hab hml
    have hba : b ≠ a := fun h => hab h.symm
    have hwa : cycleWeb a b a = .indexDoc [b] := by
      rw [cycleWeb]; simp
    have hwb : cycleWeb a b b = .indexDoc [a] := by
      rw [cycleWeb]; simp [hba]
    have h2 : fetchSitemap (cycleWeb a b) maxLevel none none 2 [b, a] a =
        (.invalidSitemap a "cycle detected", []) := by
      rw [fetchSitemap, if_pos (by simp)]
    have h1 : fetchSitemap (cycleWeb a b) maxLevel none none 1 [a] b =
        (.indexSitemap b [.invalidSitemap a "cycle detected"], [b]) := by
      rw [fetchSitemap, if_neg (by simp [hba]), dif_neg (by omega),
        if_neg (by simp), hwb]
      simp only [Option.elim, List.map_cons, List.map_nil, h2]
      rfl
    rw [fetchSitemap, if_neg (List.not_mem_nil a), dif_neg (by omega),
      if_neg (by simp), hwa]
    simp only [Option.elim, List.map_cons, List.map_nil, h1]
    rfl

/-- Witness for C1 at concrete inputs. -/
theorem fetchSitemap_cycle_guard_witness :
    fetchSitemap (cycleWeb "http://e.com/a.xml".data "http://e.com/b.xml".data)
        9 none none 0 [] "http://e.com/a.xml".data =
      (.indexSitemap "http://e.com/a.xml".data
          [.indexSitemap "http://e.com/b.xml".data
              [.invalidSitemap "http://e.com/a.xml".data "cycle detected"]],
        ["http://e.com/a.xml".data, "http://e.com/b.xml".data])
    ∧ fetchSitemap (cycleWeb "http://e.com/a.xml".data "http://e.com/b.xml".data)
        9 none none 3 ["http://e.com/c.xml".data, "http://e.com/a.xml".data]
        "http://e.com/a.xml".data =
      (.invalidSitemap "http://e.com/a.xml".data "cycle detected", []) :=
  ⟨fetchSitemap_cycle_guard.2 _ _ 9 (by decide) (by decide),
    fetchSitemap_cycle_guard.1 _ 9 none none 3 _ _ (by decide)⟩

/-! ## Claim C2 — robots.txt directive extraction -/

/-- C2: for every absolute HTTP(S) homepage URL and every robots.txt body
successfully fetched from the homepage origin plus `robots.txt`,
`discover_sitemap_urls_from_robots` requests exactly that one URL and
returns exactly the tokens following a case-insensitive `sitemap:` or
`site-map:` directive on each line, restricted to tokens that are absolute
HTTP(S) URLs, de-duplicated preserving first-seen order. -/
theorem discover_robots_extraction (homepageUrl body : PyStr)
    (net : PyStr → RobotsFetch)
    (hurl : isHttpUrl homepageUrl = true)
    (hnet : net (robotsTxtUrlOf homepageUrl) = .ok body) :
    discoverSitemapUrlsFromRobots homepageUrl net =
      (.ok (specRobotsSitemapUrls body), [robotsTxtUrlOf homepageUrl]) := by
  rw [discover_ok_body homepageUrl body net hurl hnet, robotsLoop_eq_spec]

/-- Witness for C2: three directives, one duplicate, one non-URL token. -/
theorem discover_robots_extraction_witness :
    discoverSitemapUrlsFromRobots "https://www.example.com".data
        (fun _ => .ok ("Sitemap: https://www.example.com/sitemap1.xml\nSITEMAP: https://www.example.com/sitemap2.xml\nSite-map: notaurl\nSitemap: https://www.example.com/sitemap1.xml\nUser-agent: *".data)) =
      (.ok (specRobotsSitemapUrls ("Sitemap: https://www.example.com/sitemap1.xml\nSITEMAP: https://www.example.com/sitemap2.xml\nSite-map: notaurl\nSitemap: https://www.example.com/sitemap1.xml\nUser-agent: *".data)),
        [robotsTxtUrlOf "https://www.example.com".data])
    ∧ specRobotsSitemapUrls ("Sitemap: https://www.example.com/sitemap1.xml\nSITEMAP: https://www.example.com/sitemap2.xml\nSite-map: notaurl\nSitemap: https://www.example.com/sitemap1.xml\nUser-agent: *".data) =
      ["https://www.example.com/sitemap1.xml".data,
        "https://www.example.com/sitemap2.xml".data] :=
  ⟨discover_robots_extraction _ _ _ (by decide) rfl, by decide⟩

/-! ## Claim C4 — validation error before any network request -/

/-- C4: for every homepage URL that is not an absolute HTTP(S) URL, both
`discover_sitemap_urls_from_robots` and `sitemap_tree_for_homepage` fail
with the validation error and make no network request (the request trace is
empty). -/
theorem invalid_homepage_no_request (homepageUrl : PyStr)
    (extra : List PyStr) (net : PyStr → RobotsFetch)
    (web : PyStr → FetchedDoc) (maxLevel : Nat)
    (hurl : isHttpUrl homepageUrl = false) :
    discoverSitemapUrlsFromRobots homepageUrl net =
      (.error ("URL ".data ++ homepageUrl ++ " is not a HTTP(s) URL.".data), [])
    ∧ sitemapTreeForHomepage homepageUrl extra net web maxLevel =
      (.error ("URL ".data ++ homepageUrl ++ " is not a HTTP(s) URL.".data), []) := by
  refine ⟨discover_invalid homepageUrl net hurl, ?_⟩
  rw [sitemapTreeForHomepage, discover_invalid homepageUrl net hurl]

/-- Witness for C4 on a non-HTTP homepage URL. -/
theorem invalid_homepage_no_request_witness :
    discoverSitemapUrlsFromRobots "ftp://www.example.com".data (fun _ => .ok []) =
      (.error ("URL ".data ++ "ftp://www.example.com".data
          ++ " is not a HTTP(s) URL.".data), [])
    ∧ sitemapTreeForHomepage "ftp://www.example.com".data [] (fun _ => .ok [])
        (fun _ => .failure "404 Not Found") 9 =
      (.error ("URL ".data ++ "ftp://www.example.com".data
          ++ " is not a HTTP(s) URL.".data), []) :=
  invalid_homepage_no_request _ [] _ _ 9 (by decide)

/-! ## Claim C5 — robots.txt errors and directive-free bodies are not
errors -/

/-- C5: when the robots.txt fetch ends in an error response (a 404 reaches
discovery as such an error response), and when the fetched body contains no
sitemap directive, `discover_sitemap_urls_from_robots` returns the empty
list and no error. -/
theorem discover_empty_results (homepageUrl : PyStr)
    (net : PyStr → RobotsFetch) (hurl : isHttpUrl homepageUrl = true) :
    (∀ m, net (robotsTxtUrlOf homepageUrl) = .err m →
        discoverSitemapUrlsFromRobots homepageUrl net =
          (.ok [], [robotsTxtUrlOf homepageUrl]))
    ∧ (∀ body, net (robotsTxtUrlOf homepageUrl) = .ok body →
        (∀ line ∈ splitLinesL body, lineDirectiveCandidate line = none) →
        discoverSitemapUrlsFromRobots homepageUrl net =
          (.ok [], [robotsTxtUrlOf homepageUrl])) := by
  constructor
  · intro m hnet
    exact discover_err homepageUrl m net hurl hnet
  · intro body hnet hbody
    rw [discover_ok_body homepageUrl body net hurl hnet,
      robots_no_directives body hbody]

/-- Witness for C5: a 404-style error response, and a directive-free
robots.txt. -/
theorem discover_empty_results_witness :
    discoverSitemapUrlsFromRobots "https://www.example.com".data
        (fun _ => .err "404 Not Found".data) =
      (.ok [], [robotsTxtUrlOf "https://www.example.com".data])
    ∧ discoverSitemapUrlsFromRobots "https://www.example.com".data
        (fun _ => .ok "User-agent: *\nDisallow: /admin/".data) =
      (.ok [], [robotsTxtUrlOf "https://www.example.com".data]) :=
  ⟨(discover_empty_results _ _ (by decide)).1 _ rfl,
    (discover_empty_results _ _ (by decide)).2 _ rfl (by decide)⟩

/-! ## State-shape lemmas for the web client -/

theorem waitIfNeeded_state (s : HttpxWebClientState) (d : Rat) :
    (waitIfNeeded s d).2 = s
      ∨ (waitIfNeeded s d).2 = { s with isFirstRequest := false } := by
  rw [waitIfNeeded]
  split_ifs <;> simp

theorem getTransport_state (s : HttpxWebClientState) :
    (getTransport s).2 = s
      ∨ (getTransport s).2 =
          { s with client := some s.nextId, nextId := s.nextId + 1 } := by
  rw [getTransport]
  cases s.client <;> simp

theorem waitIfNeeded_maxLen (s : HttpxWebClientState) (d : Rat) :
    (waitIfNeeded s d).2.maxResponseDataLength = s.maxResponseDataLength := by
  rcases waitIfNeeded_state s d with h | h <;> rw [h]

theorem getTransport_maxLen (s : HttpxWebClientState) :
    (getTransport s).2.maxResponseDataLength = s.maxResponseDataLength := by
  rcases getTransport_state s with h | h <;> rw [h]

theorem waitIfNeeded_zero (s : HttpxWebClientState) (d : Rat)
    (h : s.wait = 0) : waitIfNeeded s d = (none, s) := by
  rw [waitIfNeeded, if_pos h]

theorem waitIfNeeded_first (s : HttpxWebClientState) (d : Rat)
    (h : ¬ s.wait = 0) (hf : s.isFirstRequest = true) :
    waitIfNeeded s d = (none, { s with isFirstRequest := false }) := by
  rw [waitIfNeeded, if_neg h, if_pos hf]

theorem waitIfNeeded_steady (s : HttpxWebClientState) (d : Rat)
    (h : ¬ s.wait = 0) (hf : s.isFirstRequest = false) :
    waitIfNeeded s d =
      (some (s.wait * (if s.randomWait then d else 1)), s) := by
  rw [waitIfNeeded, if_neg h, if_neg (by rw [hf]; exact Bool.false_ne_true)]

theorem runGetSleeps_steady (calls : List (Rat × TransportEvent)) :
    ∀ s : HttpxWebClientState, ¬ s.wait = 0 → s.isFirstRequest = false →
      runGetSleeps s calls =
        calls.map (fun c => some (s.wait * (if s.randomWait then c.1 else 1))) := by
  induction calls with
  | nil => intro s _ _; rfl
  | cons c rest ih =>
      intro s hw hf
      obtain ⟨d, ev⟩ := c
      rw [runGetSleeps]
      simp only [httpxGet, waitIfNeeded_steady s d hw hf]
      rcases getTransport_state s with hg | hg <;> rw [hg]
      · rw [ih s hw hf, List.map_cons]
      · rw [ih { s with client := some s.nextId, nextId := s.nextId + 1 } hw hf,
          List.map_cons]

theorem runGetSleeps_zero (calls : List (Rat × TransportEvent)) :
    ∀ s : HttpxWebClientState, s.wait = 0 →
      runGetSleeps s calls = calls.map fun _ => none := by
  induction calls with
  | nil => intro s _; rfl
  | cons c rest ih =>
      intro s h0
      obtain ⟨d, ev⟩ := c
      rw [runGetSleeps]
      simp only [httpxGet, waitIfNeeded_zero s d h0]
      rcases getTransport_state s with hg | hg <;> rw [hg]
      · rw [ih s h0, List.map_cons]
      · rw [ih { s with client := some s.nextId, nextId := s.nextId + 1 } h0,
          List.map_cons]

/-! ## Well-formedness of the transport bookkeeping -/

theorem wfClient_init (w : Option Rat) (rw : Bool) :
    wfClient (initHttpxWebClient w rw) := by
  constructor
  · intro i hi; simp [initHttpxWebClient] at hi
  · intro c hc; simp [initHttpxWebClient] at hc

theorem wfClient_wait (s : HttpxWebClientState) (d : Rat)
    (h : wfClient s) : wfClient (waitIfNeeded s d).2 := by
  rcases waitIfNeeded_state s d with hg | hg <;> rw [hg]
  · exact h
  · exact h

theorem wfClient_getTransport (s : HttpxWebClientState)
    (h : wfClient s) : wfClient (getTransport s).2 := by
  obtain ⟨h1, h2⟩ := h
  rw [getTransport]
  cases hc : s.client with
  | some c => exact ⟨h1, fun c' hc' => h2 c' (hc ▸ hc')⟩
  | none =>
      refine ⟨fun i hi => Nat.lt_succ_of_lt (h1 i hi), fun c' hc' => ?_⟩
      simp only [Option.some.injEq] at hc'
      subst hc'
      exact ⟨Nat.lt_succ_self _, fun hmem => absurd (h1 _ hmem) (lt_irrefl _)⟩

theorem wfClient_close (s : HttpxWebClientState)
    (h : wfClient s) : wfClient (closeClient s) := by
  obtain ⟨h1, h2⟩ := h
  rw [closeClient]
  cases hc : s.client with
  | none => exact ⟨h1, fun c' hc' => h2 c' (hc ▸ hc')⟩
  | some c =>
      refine ⟨fun i hi => ?_, fun c' hc' => by simp at hc'⟩
      simp only [List.mem_cons] at hi
      rcases hi with rfl | hi
      · exact (h2 i hc).1
      · exact h1 i hi

theorem wfClient_httpxGet (s : HttpxWebClientState) (d : Rat)
    (ev : TransportEvent) (h : wfClient s) :
    wfClient (httpxGet s d ev).2.2 :=
  wfClient_getTransport _ (wfClient_wait s d h)

theorem wfClient_runOps (ops : List ClientOp) :
    ∀ s : HttpxWebClientState, wfClient s → wfClient (runClientOps s ops) := by
  induction ops with
  | nil => intro s h; exact h
  | cons op rest ih =>
      intro s h
      cases op with
      | opGet d ev => exact ih _ (wfClient_httpxGet s d ev h)
      | opClose => exact ih _ (wfClient_close s h)
      | opSetMaxLen n => exact ih _ h

theorem getTransport_live (s : HttpxWebClientState) (h : wfClient s) :
    (getTransport s).2.client = some (getTransport s).1
      ∧ (getTransport s).1 ∉ s.closedIds := by
  obtain ⟨h1, h2⟩ := h
  rw [getTransport]
  cases hc : s.client with
  | some c => exact ⟨hc, (h2 c hc).2⟩
  | none =>
      exact ⟨rfl, fun hmem => absurd (h1 _ hmem) (lt_irrefl _)⟩


/-! ## Claim C3 — error classification of `HttpxWebClient.get` -/

/-- C3: `get` returns a success exactly for a 2xx status; a timeout yields
a retryable error; any other transport-level failure yields a non-retryable
error; a non-2xx status yields an error that is retryable exactly when the
status is in the fixed retryable set. -/
theorem httpx_get_classification (maxLen : Option Int) (ev : TransportEvent) :
    (∀ m, ev = .timeoutError m → httpxGetClassify maxLen ev = .error m true)
    ∧ (∀ m, ev = .httpError m → httpxGetClassify maxLen ev = .error m false)
    ∧ (∀ sc phrase content, ev = .response sc phrase content →
        (200 ≤ sc ∧ sc < 300 →
          httpxGetClassify maxLen ev = .success sc maxLen content)
        ∧ (¬(200 ≤ sc ∧ sc < 300) →
          httpxGetClassify maxLen ev =
            .error (Nat.repr sc ++ " " ++ phrase)
              (decide (sc ∈ RETRYABLE_HTTP_STATUS_CODES))))
    ∧ ((∃ sc ml c, httpxGetClassify maxLen ev = .success sc ml c) ↔
        ∃ sc phrase content,
          ev = .response sc phrase content ∧ 200 ≤ sc ∧ sc < 300) := by
  refine ⟨?_, ?_, ?_, ?_⟩
  · rintro m rfl; rfl
  · rintro m rfl; rfl
  · rintro sc phrase content rfl
    constructor
    · intro h
      rw [httpxGetClassify, if_pos (by simpa [decide_eq_true_eq] using h)]
    · intro h
      rw [httpxGetClassify,
        if_neg (by simpa [decide_eq_true_eq, Decidable.not_and_iff_or_not] using h)]
      by_cases hm : sc ∈ RETRYABLE_HTTP_STATUS_CODES
      · simp [hm]
      · simp [hm]
  · constructor
    · rintro ⟨sc, ml, c, h⟩
      cases ev with
      | timeoutError m => simp [httpxGetClassify] at h
      | httpError m => simp [httpxGetClassify] at h
      | response sc2 phrase content =>
          rw [httpxGetClassify] at h
          by_cases h2 : (200 ≤ sc2 && sc2 < 300) = true
          · refine ⟨sc2, phrase, content, rfl, ?_⟩
            simpa [decide_eq_true_eq] using h2
          · rw [if_neg h2] at h
            split_ifs at h
    · rintro ⟨sc, phrase, content, rfl, h1, h2⟩
      refine ⟨sc, maxLen, content, ?_⟩
      rw [httpxGetClassify, if_pos (by simp [h1, h2])]

/-- Witness for C3: a timeout, a connection error, a 204, a 503 and a
404. -/
theorem httpx_get_classification_witness :
    httpxGetClassify none (.timeoutError "") = .error "" true
    ∧ httpxGetClassify none (.httpError "All connection attempts failed") =
        .error "All connection attempts failed" false
    ∧ httpxGetClassify (some 10) (.response 204 "No Content" [1, 2]) =
        .success 204 (some 10) [1, 2]
    ∧ httpxGetClassify none (.response 503 "Service Unavailable" []) =
        .error (Nat.repr 503 ++ " " ++ "Service Unavailable")
          (decide (503 ∈ RETRYABLE_HTTP_STATUS_CODES))
    ∧ decide (503 ∈ RETRYABLE_HTTP_STATUS_CODES) = true
    ∧ httpxGetClassify none (.response 404 "Not Found" []) =
        .error (Nat.repr 404 ++ " " ++ "Not Found")
          (decide (404 ∈ RETRYABLE_HTTP_STATUS_CODES))
    ∧ decide (404 ∈ RETRYABLE_HTTP_STATUS_CODES) = false :=
  ⟨(httpx_get_classification none _).1 _ rfl,
    (httpx_get_classification none _).2.1 _ rfl,
    ((httpx_get_classification (some 10) _).2.2.1 204 "No Content" [1, 2] rfl).1
      (by decide),
    ((httpx_get_classification none _).2.2.1 503 "Service Unavailable" [] rfl).2
      (by decide),
    by decide,
    ((httpx_get_classification none _).2.2.1 404 "Not Found" [] rfl).2
      (by decide),
    by decide⟩


/-! ## Claim C6 — truncation to the configured maximum length -/

/-- Counterexample to C6 as stated for every `N`: with the limit set to
`0`, a one-byte success body is returned untruncated, so its length is not
`≤ 0`. -/
theorem raw_data_truncation_counterexample :
    (httpxGet (setMaxResponseDataLength (initHttpxWebClient none false) (some 0))
        1 (.response 200 "OK" [7])).1 = .success 200 (some 0) [7]
    ∧ ¬(((rawData (some 0) [7]).length : Int) ≤ 0) := by
  constructor
  · rfl
  · decide

/-- C6 (amended): for every `N > 0` set via `set_max_response_data_length`,
every success response subsequently returned by `get` has
`raw_data` of length at most `N`. -/
theorem raw_data_truncation_pos (s : HttpxWebClientState) (draw : Rat)
    (ev : TransportEvent) (N : Int) (hN : 0 < N) :
    ∀ sc ml content,
      (httpxGet (setMaxResponseDataLength s (some N)) draw ev).1 =
        .success sc ml content →
      ((rawData ml content).length : Int) ≤ N := by
  intro sc ml content h
  have hml : (getTransport
      (waitIfNeeded (setMaxResponseDataLength s (some N)) draw).2).2.maxResponseDataLength
      = some N := by
    rw [getTransport_maxLen, waitIfNeeded_maxLen]
    rfl
  simp only [httpxGet] at h
  rw [hml] at h
  cases ev with
  | timeoutError m => simp [httpxGetClassify] at h
  | httpError m => simp [httpxGetClassify] at h
  | response sc2 phrase content2 =>
      rw [httpxGetClassify] at h
      by_cases h2 : (200 ≤ sc2 && sc2 < 300) = true
      · rw [if_pos h2] at h
        obtain ⟨rfl, rfl, rfl⟩ : sc2 = sc ∧ some N = ml ∧ content2 = content := by
          simpa [GetResult.success.injEq] using h
        rw [rawData, if_neg (by omega : ¬ N = 0), pySliceTo,
          if_pos (by omega : (0 : Int) ≤ N)]
        have hlen := List.length_take_le N.toNat content2
        omega
      · rw [if_neg h2] at h
        split_ifs at h

/-- Witness for C6 (amended): limit 2 on a three-byte body. -/
theorem raw_data_truncation_pos_witness :
    ((rawData (some 2) [7, 8, 9]).length : Int) ≤ 2 :=
  raw_data_truncation_pos (initHttpxWebClient none false) 1
    (.response 200 "OK" [7, 8, 9]) 2 (by decide) 200 (some 2) [7, 8, 9] rfl

/-! ## Claim C9 — a zero limit disables truncation -/

/-- C9: with `max_response_data_length` set to exactly `0`, `raw_data`
returns the whole body untruncated — the Python code tests the limit for
truthiness, so `0` behaves like `None`. -/
theorem raw_data_zero_limit (s : HttpxWebClientState) (content : List Nat) :
    rawData (setMaxResponseDataLength s (some 0)).maxResponseDataLength content
      = content
    ∧ rawData (some 0) content = content := by
  constructor <;> rfl

/-! ## Claim C7 — inter-request wait -/

/-- C7: with a nonzero wait configured, no sleep happens before the first
request of the instance and every later request is preceded by a sleep of
the configured duration times the jitter draw (times 1 when random wait is
off); with no wait configured (absent or zero) no sleep ever happens; and
for a positive wait, a jitter draw within `[1/2, 3/2]` keeps the slept
duration within `[wait/2, 3*wait/2]`. -/
theorem request_wait_behavior :
    (∀ (w : Rat) (rw : Bool) (c : Rat × TransportEvent)
        (cs : List (Rat × TransportEvent)), w ≠ 0 →
        runGetSleeps (initHttpxWebClient (some w) rw) (c :: cs) =
          none :: cs.map (fun p => some (w * (if rw then p.1 else 1))))
    ∧ (∀ (w : Option Rat) (rw : Bool) (cs : List (Rat × TransportEvent)),
        w = none ∨ w = some 0 →
        runGetSleeps (initHttpxWebClient w rw) cs = cs.map fun _ => none)
    ∧ (∀ (w d : Rat) (rw : Bool), 0 < w → 1 / 2 ≤ d → d ≤ 3 / 2 →
        w / 2 ≤ w * (if rw then d else 1)
          ∧ w * (if rw then d else 1) ≤ 3 * w / 2) := by
  refine ⟨?_, ?_, ?_⟩
  · intro w rw c cs hw
    obtain ⟨d, ev⟩ := c
    rw [runGetSleeps]
    simp only [httpxGet,
      waitIfNeeded_first (initHttpxWebClient (some w) rw) d hw rfl]
    rcases getTransport_state
        { initHttpxWebClient (some w) rw with isFirstRequest := false }
      with hg | hg <;> rw [hg] <;>
      rw [runGetSleeps_steady cs _ hw rfl] <;> rfl
  · rintro w rw cs (rfl | rfl) <;> exact runGetSleeps_zero cs _ rfl
  · intro w d rw h0 h1 h2
    cases rw with
    | false =>
        simp only [Bool.false_eq_true, if_false, mul_one]
        constructor <;> linarith
    | true =>
        simp only [if_true]
        constructor <;> nlinarith

theorem rat_one_ne_zero : (1 : Rat) ≠ 0 := one_ne_zero

theorem rat_zero_lt_one : (0 : Rat) < 1 := zero_lt_one

theorem rat_half_le_one : (1 : Rat) / 2 ≤ 1 := by norm_num

theorem rat_one_le_three_halves : (1 : Rat) ≤ 3 / 2 := by norm_num

/-- Witness for C7: a two-request sequence with wait 1, a no-wait client,
and the jitter bound at draw 1. -/
theorem request_wait_behavior_witness :
    runGetSleeps (initHttpxWebClient (some 1) false)
        [(1, .response 200 "OK" []), (1, .response 200 "OK" [])] =
      none :: [((1 : Rat), TransportEvent.response 200 "OK" [])].map
          (fun p => some (1 * (if false then p.1 else 1)))
    ∧ runGetSleeps (initHttpxWebClient none true)
        [(1, .response 200 "OK" [])] =
      [((1 : Rat), TransportEvent.response 200 "OK" [])].map (fun _ => none)
    ∧ ((1 : Rat) / 2 ≤ 1 * (if true then (1 : Rat) else 1)
        ∧ 1 * (if true then (1 : Rat) else 1) ≤ 3 * 1 / 2) :=
  ⟨request_wait_behavior.1 1 false (1, .response 200 "OK" [])
      [(1, .response 200 "OK" [])] rat_one_ne_zero,
    request_wait_behavior.2.1 none true [(1, .response 200 "OK" [])] (Or.inl rfl),
    request_wait_behavior.2.2 1 1 true rat_zero_lt_one rat_half_le_one
      rat_one_le_three_halves⟩

/-! ## Claim C8 — idempotence of `close` -/

/-- C8: `close` on a client that holds no transport (never opened, or
already closed) is a no-op and does not fail, and two consecutive `close`
calls leave the client in the same state as one. -/
theorem close_idempotent :
    (∀ s : HttpxWebClientState, s.client = none → closeClient s = s)
    ∧ ∀ s : HttpxWebClientState, closeClient (closeClient s) = closeClient s := by
  have hnone : ∀ s : HttpxWebClientState, s.client = none → closeClient s = s := by
    intro s h
    rw [closeClient, h]
  refine ⟨hnone, ?_⟩
  intro s
  cases hc : s.client with
  | none =>
      rw [hnone s hc]
      exact hnone s hc
  | some c =>
      have h1 : closeClient s =
          { s with client := none, closedIds := c :: s.closedIds } := by
        rw [closeClient, hc]
      rw [h1, hnone _ rfl]

/-- Witness for C8: closing a freshly constructed (never-opened) client is
a no-op. -/
theorem close_idempotent_witness :
    closeClient (initHttpxWebClient none false) = initHttpxWebClient none false :=
  close_idempotent.1 _ rfl

/-! ## Claim C10 — `get` succeeds after `close` -/

/-- C10: in every state reachable by any sequence of operations on a fresh
client, `_get_client` — in particular the one performed by the next `get`
after a `close` — yields a transport that has never been closed and leaves
it installed as the current transport: closing never makes the client
permanently unusable. -/
theorem get_after_close_live (w : Option Rat) (rw : Bool) (ops : List ClientOp) :
    (getTransport (closeClient (runClientOps (initHttpxWebClient w rw) ops))).2.client
      = some (getTransport (closeClient (runClientOps (initHttpxWebClient w rw) ops))).1
    ∧ (getTransport (closeClient (runClientOps (initHttpxWebClient w rw) ops))).1
      ∉ (closeClient (runClientOps (initHttpxWebClient w rw) ops)).closedIds
    ∧ (getTransport (runClientOps (initHttpxWebClient w rw) ops)).2.client
      = some (getTransport (runClientOps (initHttpxWebClient w rw) ops)).1
    ∧ (getTransport (runClientOps (initHttpxWebClient w rw) ops)).1
      ∉ (runClientOps (initHttpxWebClient w rw) ops).closedIds := by
  have hwf : wfClient (runClientOps (initHttpxWebClient w rw) ops) :=
    wfClient_runOps ops _ (wfClient_init w rw)
  have h1 := getTransport_live _ (wfClient_close _ hwf)
  have h2 := getTransport_live _ hwf
  exact ⟨h1.1, h1.2, h2.1, h2.2⟩
end Usp
